import Mathlib

/-!
Verification of the product scoring and enrichment pipeline of the
Streamline repository (src/agents/product_agent.py), as a shallow
embedding in Lean.

Numbers that the Python code manipulates as floats are embedded as
rationals; `round(x, 2)` is embedded as `round2`.  Python dictionaries
holding product data are embedded as structures whose fields are
`Option`-valued: `none` models an absent key, and each access point
uses the same default the source passes to `dict.get`.
-/

namespace Streamline

/-- Python `round(x, 2)`: round to two decimal places.  (Embedded with
round-half-up on rationals; the bounds and monotonicity facts proved
below hold for any nearest-value rounding.) -/
def round2 (x : ℚ) : ℚ := (round (x * 100) : ℤ) / 100

theorem round2_mono {x y : ℚ} (h : x ≤ y) : round2 x ≤ round2 y := by
  unfold round2
  have h1 : round (x * 100) ≤ round (y * 100) := by
    rw [round_eq, round_eq]
    exact Int.floor_le_floor (by linarith)
  have h2 : ((round (x * 100) : ℤ) : ℚ) ≤ ((round (y * 100) : ℤ) : ℚ) := by
    exact_mod_cast h1
  linarith

theorem round2_nonneg {x : ℚ} (h : 0 ≤ x) : 0 ≤ round2 x := by
  have h0 : round2 0 ≤ round2 x := round2_mono h
  have : round2 0 = 0 := by
    unfold round2
    norm_num
  linarith

theorem round2_le_of_le {x c : ℚ} (hc : c * 100 = round (c * 100)) (h : x ≤ c) :
    round2 x ≤ c := by
  have h0 : round2 x ≤ round2 c := round2_mono h
  have : round2 c = c := by
    unfold round2
    rw [← hc]
    field_simp
  linarith

/-- A product record as it flows through the pipeline: the union of the
keys produced by the two search paths and by detail enrichment.  A
`none` field models a key absent from the Python dict. -/
structure Product where
  asin : Option String := none
  title : Option String := none
  brand : Option String := none
  price : Option ℚ := none
  category : Option String := none
  image_url : Option String := none
  is_sponsored : Option Bool := none
  ad_pressure_level : Option String := none
  sponsored_ratio : Option ℚ := none
  amazon_link : Option String := none
  wholesale_price : Option ℚ := none
  rating : Option ℚ := none
  review_count : Option ℚ := none
  best_seller_rank : Option ℚ := none
  category_ranks : Option (List (ℚ × String)) := none
  profit_margin : Option ℚ := none
  marketplace_sellers : Option (List String) := none
  seller_count : Option ℕ := none
  competition_level : Option String := none
  competition_details : Option String := none
  sponsored_count : Option ℕ := none
  ad_pressure_details : Option (List String) := none
  ad_pressure_score : Option ℕ := none
  score : Option ℚ := none
deriving DecidableEq

/-- The filter-criteria dict built by `parse_query_filters`; `none` is
Python `None` ("no constraint"). -/
structure Filters where
  min_margin : Option ℚ := none
  max_price : Option ℚ := none
  min_rating : Option ℚ := none
  max_reviews : Option ℚ := none
  category : Option String := none
deriving DecidableEq

/-- `_calculate_product_score` (product_agent.py lines 596-641): a
weighted sum of rating, review volume, best-seller rank, profit margin
and ad pressure, returned as `round(score * 100, 2)`. -/
def calculate_product_score (product : Product) : ℚ :=
  let rating := product.rating.getD 0
  let review_count := min (product.review_count.getD 0 / 5000) 1
  let best_seller_rank := product.best_seller_rank.getD 1000
  let rank_score := 1 - min (best_seller_rank / 100) 1
  let profit_margin := min (product.profit_margin.getD 0 / 100) 1
  let ad_pressure_level := product.ad_pressure_level.getD "Medium"
  let ad_pressure_score : ℚ :=
    if ad_pressure_level = "Low" then 1
    else if ad_pressure_level = "Medium" then 1/2
    else 1/10
  let score :=
    (25/100) * (rating / 5) + (15/100) * review_count + (20/100) * rank_score +
      (25/100) * profit_margin + (15/100) * ad_pressure_score
  round2 (score * 100)

/-- `x.get('score', 0)`, the sort key used on scored candidates. -/
def scoreOf (product : Product) : ℚ := product.score.getD 0

/-- Whether one candidate's score is at least another's: the ordering
used to sort candidates descending by score. -/
def scoreGE (a b : Product) : Prop := scoreOf b ≤ scoreOf a

instance : DecidableRel scoreGE :=
  fun a b => inferInstanceAs (Decidable (scoreOf b ≤ scoreOf a))

instance : IsTotal Product scoreGE :=
  ⟨fun a b => le_total (scoreOf b) (scoreOf a)⟩

instance : IsTrans Product scoreGE :=
  ⟨fun _ _ _ h1 h2 => le_trans h2 h1⟩

/-- `products.sort(key=lambda x: x.get('score', 0), reverse=True)`:
sort descending by score.  (The source uses Python's stable sort; the
claims proved here do not depend on the order of equal-score ties, so
insertion sort is used.) -/
def sortByScoreDesc (products : List Product) : List Product :=
  List.insertionSort scoreGE products

/-- One candidate's check against every non-null constraint, from the
loop body of `_apply_filters` (lines 1276-1297).  Missing `price` /
`review_count` default to `float('inf')` in the source, so a candidate
missing them fails any `max_price` / `max_reviews` constraint. -/
def passesFilters (filters : Filters) (product : Product) : Bool :=
  (match filters.min_margin with
   | none => true
   | some m => decide (m ≤ product.profit_margin.getD 0)) &&
  (match filters.max_price with
   | none => true
   | some m => match product.price with
     | none => false
     | some v => decide (v ≤ m)) &&
  (match filters.min_rating with
   | none => true
   | some m => decide (m ≤ product.rating.getD 0)) &&
  (match filters.max_reviews with
   | none => true
   | some m => match product.review_count with
     | none => false
     | some v => decide (v ≤ m))

/-- `_apply_filters` (lines 1252-1308): keep the candidates passing
every non-null constraint; if that leaves nothing and the input was
non-empty, return the top `min(3, len(products))` of the input sorted
descending by score. -/
def apply_filters (products : List Product) (filters : Filters) : List Product :=
  if products = [] then []
  else
    let filtered := products.filter (passesFilters filters)
    if filtered = [] then
      (sortByScoreDesc products).take (min 3 products.length)
    else filtered

/-- One entry of an SP-API item's `images` list. -/
structure AmazonImage where
  variant : Option String := none
  link : Option String := none
deriving DecidableEq

/-- The first entry of an SP-API item's `summaries` list. -/
structure AmazonSummary where
  title : Option String := none
  brandName : Option String := none
deriving DecidableEq

/-- One entry of an SP-API item's `attributes` list.  `value` holds the
float-parse of the attribute's value string: `none` models a string
`float()` rejects, and an absent value string parses as `0`, exactly as
the `try/except ValueError` in the source leaves `price = 0`. -/
structure AmazonAttr where
  name : Option String := none
  value : Option ℚ := none
deriving DecidableEq

/-- A raw item of a successful SP-API catalog search response. -/
structure AmazonItem where
  asin : Option String := none
  summaries : List AmazonSummary := []
  productTypes : List (Option String) := []
  images : List AmazonImage := []
  attributes : Option (List AmazonAttr) := none
deriving DecidableEq

/-- The per-item formatting loop of `_search_amazon_products` (lines
273-320): summary title/brand, first product type, MAIN-variant image
preferred over the first image, and the first `ListPrice` attribute. -/
def formatAmazonItem (item : AmazonItem) : Product :=
  let summary := item.summaries.head?
  let title := (summary.bind (fun s => s.title)).getD ""
  let brand := (summary.bind (fun s => s.brandName)).getD ""
  let category := match item.productTypes.head? with
    | some c => c.getD ""
    | none => ""
  let image_url := match item.images with
    | [] => ""
    | imgs =>
      match imgs.filter (fun i => i.variant = some "MAIN") with
      | [] => (imgs.head?.bind (fun i => i.link)).getD ""
      | i :: _ => i.link.getD ""
  let price := match (item.attributes.getD []).find? (fun a => a.name = some "ListPrice") with
    | some a => a.value.getD 0
    | none => 0
  { asin := some (item.asin.getD ""), title := some title, brand := some brand,
    price := some price, category := some category, image_url := some image_url }

/-- The observable outcome of the one HTTP round trip a search makes:
either an exception was raised somewhere in the `try` block, or a
response with a status code and a parsed body came back. -/
inductive HttpOutcome (α : Type) where
  | exn
  | resp (status : ℕ) (body : α)
deriving DecidableEq

/-- `_search_amazon_products` (lines 228-331), abstracted over the HTTP
outcome of the SP-API call and over `_search_rainforest_products`
(passed as the function `rainforest`): a 200 response is formatted item
by item; an exception or any other status falls back to
`rainforest search_terms category limit`. -/
def search_amazon_products (outcome : HttpOutcome (List AmazonItem))
    (rainforest : String → Option String → ℕ → List Product)
    (search_terms : String) (category : Option String) (limit : ℕ) : List Product :=
  match outcome with
  | .exn => rainforest search_terms category limit
  | .resp status items =>
    if status = 200 then items.map formatAmazonItem
    else rainforest search_terms category limit

/-- A `brand` field of a Rainforest response, which may be absent, a
bare string, a dict with an optional `name`, or some other shape. -/
inductive BrandField where
  | missing
  | str (s : String)
  | obj (name : Option String)
  | other
deriving DecidableEq

/-- The brand normalization both Rainforest paths perform: a dict
yields its `name` (default empty), a string is taken as is, anything
else leaves the empty default. -/
def brandNameOf : BrandField → String
  | .missing => ""
  | .str s => s
  | .obj name => name.getD ""
  | .other => ""

/-- A `price` field of a Rainforest search result: absent, a dict with
an optional numeric `value`, or a non-dict shape. -/
inductive PriceField where
  | missing
  | obj (value : Option ℚ)
  | other
deriving DecidableEq

/-- Price normalization in `_search_rainforest_products` (lines
397-401): only a dict shape contributes its `value` (default 0). -/
def priceValueOf : PriceField → ℚ
  | .missing => 0
  | .obj value => value.getD 0
  | .other => 0

/-- A raw entry of a Rainforest search response; each element of
`categories` stands for a category dict's optional `name`. -/
structure RFSearchItem where
  asin : Option String := none
  title : Option String := none
  brand : BrandField := .missing
  price : PriceField := .missing
  categories : Option (List (Option String)) := none
  image : Option String := none
  sponsored : Option Bool := none
deriving DecidableEq

/-- `item.get('categories', [{}])[0].get('name', '') if
item.get('categories') else ''`. -/
def categoryNameOf : Option (List (Option String)) → String
  | some (c :: _) => c.getD ""
  | _ => ""

/-- The sponsored-ratio computation of `_search_rainforest_products`
(lines 368-372): the share of sponsored entries among the first 20
results, `0` for an empty result set. -/
def sponsoredRatioOf (search_results : List RFSearchItem) : ℚ :=
  let results_to_analyze := search_results.take 20
  let sponsored_count := (results_to_analyze.filter (fun i => i.sponsored.getD false)).length
  let total_count := results_to_analyze.length
  if 0 < total_count then (sponsored_count : ℚ) / (total_count : ℚ) else 0

/-- The ad-pressure classification of `_search_rainforest_products`
(lines 374-380): Low below 0.2, Medium up to 0.5, High above. -/
def adPressureLevelOf (sponsored_ratio : ℚ) : String :=
  if sponsored_ratio < 2/10 then "Low"
  else if sponsored_ratio ≤ 5/10 then "Medium"
  else "High"

/-- The success path of `_search_rainforest_products` (lines 364-420):
compute one (ratio, level) pair for the whole response, attach it to
every formatted candidate, and truncate to `limit`. -/
def search_rainforest_products (search_results : List RFSearchItem) (limit : ℕ) :
    List Product :=
  let sponsored_ratio := sponsoredRatioOf search_results
  let ad_pressure_level := adPressureLevelOf sponsored_ratio
  (search_results.map (fun item =>
    ({ asin := some (item.asin.getD ""),
       title := some (item.title.getD ""),
       brand := some (brandNameOf item.brand),
       price := some (priceValueOf item.price),
       category := some (categoryNameOf item.categories),
       image_url := some (item.image.getD ""),
       is_sponsored := some (item.sponsored.getD false),
       ad_pressure_level := some ad_pressure_level,
       sponsored_ratio := some sponsored_ratio } : Product))).take limit

/-- Characters the regex class `\s` matches in the queries at hand. -/
def isWSChar (c : Char) : Bool :=
  c = ' ' || c = '\t' || c = '\n' || c = '\r'

/-- Numeric value of a digit run, as Python `int()` reads it. -/
def digitsToNat (ds : List Char) : ℕ :=
  ds.foldl (fun acc c => 10 * acc + (c.toNat - '0'.toNat)) 0

/-- Match `(\d+)%\s+margin` anchored at the head of `cs`, returning the
captured number.  The digit and whitespace runs are maximal, which
agrees with the backtracking regex because `%` is not a digit and
`margin` does not start with whitespace. -/
def matchPercentMarginAt (cs : List Char) : Option ℕ :=
  let ds := cs.takeWhile (fun c => c.isDigit)
  let rest := cs.dropWhile (fun c => c.isDigit)
  if ds = [] then none
  else
    match rest with
    | '%' :: rest2 =>
      let ws := rest2.takeWhile isWSChar
      let rest3 := rest2.dropWhile isWSChar
      if ws = [] then none
      else if "margin".toList.isPrefixOf rest3 then some (digitsToNat ds) else none
    | _ => none

/-- Match `margin\s+of\s+(\d+)%` anchored at the head of `cs`. -/
def matchMarginOfAt (cs : List Char) : Option ℕ :=
  if "margin".toList.isPrefixOf cs then
    let r1 := cs.drop 6
    let ws1 := r1.takeWhile isWSChar
    let r2 := r1.dropWhile isWSChar
    if ws1 = [] then none
    else if "of".toList.isPrefixOf r2 then
      let r3 := r2.drop 2
      let ws2 := r3.takeWhile isWSChar
      let r4 := r3.dropWhile isWSChar
      if ws2 = [] then none
      else
        let ds := r4.takeWhile (fun c => c.isDigit)
        let r5 := r4.dropWhile (fun c => c.isDigit)
        if ds = [] then none
        else
          match r5 with
          | '%' :: _ => some (digitsToNat ds)
          | _ => none
    else none
  else none

/-- `re.search` for `(\d+)%\s+margin|margin\s+of\s+(\d+)%`: leftmost
match wins, first alternative preferred at equal positions; the value
is `int(group(1) or group(2))`. -/
def searchMarginValue : List Char → Option ℕ
  | [] => none
  | c :: cs =>
    match matchPercentMarginAt (c :: cs) with
    | some n => some n
    | none =>
      match matchMarginOfAt (c :: cs) with
      | some n => some n
      | none => searchMarginValue cs

/-- Match `under\s+\$?(\d+)` anchored at the head of `cs`. -/
def matchUnderAt (cs : List Char) : Option ℕ :=
  if "under".toList.isPrefixOf cs then
    let r1 := cs.drop 5
    let ws := r1.takeWhile isWSChar
    let r2 := r1.dropWhile isWSChar
    if ws = [] then none
    else
      let r3 := match r2 with
        | '$' :: t => t
        | _ => r2
      let ds := r3.takeWhile (fun c => c.isDigit)
      if ds = [] then none else some (digitsToNat ds)
  else none

/-- Match `less than\s+\$?(\d+)` anchored at the head of `cs`. -/
def matchLessThanAt (cs : List Char) : Option ℕ :=
  if "less than".toList.isPrefixOf cs then
    let r1 := cs.drop 9
    let ws := r1.takeWhile isWSChar
    let r2 := r1.dropWhile isWSChar
    if ws = [] then none
    else
      let r3 := match r2 with
        | '$' :: t => t
        | _ => r2
      let ds := r3.takeWhile (fun c => c.isDigit)
      if ds = [] then none else some (digitsToNat ds)
  else none

/-- `re.search` for `under\s+\$?(\d+)|less than\s+\$?(\d+)`. -/
def searchPriceValue : List Char → Option ℕ
  | [] => none
  | c :: cs =>
    match matchUnderAt (c :: cs) with
    | some n => some n
    | none =>
      match matchLessThanAt (c :: cs) with
      | some n => some n
      | none => searchPriceValue cs

/-- `needle in haystack` on character lists. -/
def containsSub (haystack needle : List Char) : Bool :=
  match haystack with
  | [] => needle.isPrefixOf ([] : List Char)
  | _ :: rest => needle.isPrefixOf haystack || containsSub rest needle

/-- `parse_query_filters` (lines 1093-1182), abstracted over the
outcome of the completion call: `.error` models an exception raised by
the OpenAI request or the JSON parse (caught by the `except` clause,
which returns the all-null dict), `.ok` carries the parsed filter JSON.
On success the non-null extracted values land in the filter dict, then
the margin regex fallback fires only if `min_margin` is still null and
the lowered query mentions `margin`, and the price fallback only if
`max_price` is still null and the query says `under` or `less than`. -/
def parse_query_filters (query : String) (completion : Except Unit Filters) : Filters :=
  match completion with
  | .error _ => {}
  | .ok extracted =>
    let filters := extracted
    let lowered := query.toList.map Char.toLower
    let filters :=
      if filters.min_margin = none ∧ containsSub lowered "margin".toList = true then
        match searchMarginValue lowered with
        | some n => { filters with min_margin := some (n : ℚ) }
        | none => filters
      else filters
    let filters :=
      if filters.max_price = none ∧
          (containsSub lowered "under".toList = true ∨
           containsSub lowered "less than".toList = true) then
        match searchPriceValue lowered with
        | some n => { filters with max_price := some (n : ℚ) }
        | none => filters
      else filters
    filters

/-- A `buybox_winner` dict: `price_value` flattens
`buybox_winner.price.value` (absent at any level gives `none`), and
`fulfilled_by` is the seller-fulfillment tag. -/
structure BuyBox where
  price_value : Option ℚ := none
  fulfilled_by : Option String := none
deriving DecidableEq

/-- A `merchant` field of an offer: a dict carrying an optional `name`
(an absent merchant key defaults to the empty dict), or a non-dict
shape the source skips. -/
inductive MerchantField where
  | dict (name : Option String)
  | other
deriving DecidableEq

/-- One entry of an `offers` list; `merchant` keeps the dict-or-other
shape distinction the source branches on. -/
structure OfferEntry where
  merchant : MerchantField := .dict none
deriving DecidableEq

/-- The dict `_get_rainforest_product_data` passes to
`determine_competition_level` (lines 507-512).  `offers` is `none` when
the key is absent or not a list, `buybox_winner` is `none` when absent
or the empty (falsy) dict. -/
structure CompetitionInput where
  review_count : ℤ := 0
  offers : Option (List OfferEntry) := none
  marketplace_sellers : Option (List String) := none
  buybox_winner : Option BuyBox := none
deriving DecidableEq

/-- The seller-count resolution of `determine_competition_level` (lines
1197-1213): a non-empty offers list counts its entries, else a
non-empty marketplace_sellers list counts its names, else a truthy
buybox winner counts as one seller (two when fulfilled by Amazon). -/
def sellerCountOf (i : CompetitionInput) : ℕ :=
  match i.offers with
  | some (o :: os) => (o :: os).length
  | _ =>
    match i.marketplace_sellers with
    | some (s :: ss) => (s :: ss).length
    | _ =>
      match i.buybox_winner with
      | some b => if b.fulfilled_by = some "Amazon" then 2 else 1
      | none => 0

/-- The seller-count branch's rationale string before the review-count
suffix (lines 1232-1240). -/
def sellerDetailsOf (seller_count : ℕ) : String :=
  if seller_count ≤ 2 then
    "Only " ++ toString seller_count ++ " sellers in the market"
  else if seller_count ≤ 5 then
    toString seller_count ++ " sellers competing in this market"
  else
    "Crowded market with " ++ toString seller_count ++ " active sellers"

/-- `determine_competition_level` (lines 1184-1250), the path without
an internal exception: classify by seller count when any seller data
exists (appending review context when reviews exist), else by review
count alone. -/
def determine_competition_level (i : CompetitionInput) : String × String :=
  let review_count := i.review_count
  let seller_count := sellerCountOf i
  if seller_count = 0 then
    if review_count = 0 then
      ("Unknown", "No review or seller data available")
    else if review_count < 500 then
      ("Low", "Only " ++ toString review_count ++ " reviews, likely new market")
    else if review_count < 1000 then
      ("Medium", toString review_count ++ " reviews indicate established competition")
    else
      ("High", "High review count (" ++ toString review_count ++ ") indicates mature market")
  else
    let level :=
      if seller_count ≤ 2 then "Low"
      else if seller_count ≤ 5 then "Medium"
      else "High"
    let details :=
      if 0 < review_count then
        sellerDetailsOf seller_count ++ " with " ++ toString review_count ++ " product reviews"
      else sellerDetailsOf seller_count
    (level, details)

/-- One entry of a `bestsellers_rank` list. -/
structure RankEntry where
  rank : Option ℚ := none
  category : Option String := none
deriving DecidableEq

/-- The `product` object of a successful Rainforest detail response
(`type=product`).  `sponsored_products` keeps only the entries' count
carrier; `ad_pressure_level` / `sponsored_ratio` model the
`product.get(..., None)` reads the source performs on this object. -/
structure DetailProduct where
  rating : Option ℚ := none
  ratings_total : Option ℤ := none
  buybox_winner : Option BuyBox := none
  brand : BrandField := .missing
  bestsellers_rank : List RankEntry := []
  offers : List OfferEntry := []
  sponsored : Option Bool := none
  sponsored_products : List String := []
  ad_pressure_level : Option String := none
  sponsored_ratio : Option ℚ := none
deriving DecidableEq

/-- The best-seller-rank loop (lines 470-488): the minimum over all
entry ranks (each defaulting to 999999), starting from 999999. -/
def bestRankOf (entries : List RankEntry) : ℚ :=
  entries.foldl
    (fun best e => if e.rank.getD 999999 < best then e.rank.getD 999999 else best)
    999999

/-- `category_ranks` as collected by the same loop. -/
def categoryRanksOf (entries : List RankEntry) : List (ℚ × String) :=
  entries.map (fun e => (e.rank.getD 999999, e.category.getD "Unknown Category"))

/-- The marketplace-sellers loop (lines 494-501): merchant names of
dict-shaped merchants (default `Unknown Seller`), first occurrence
kept, duplicates dropped. -/
def marketplaceSellersOf (offers : List OfferEntry) : List String :=
  offers.foldl
    (fun acc o =>
      match o.merchant with
      | .dict name =>
        let seller_name := name.getD "Unknown Seller"
        if seller_name ∈ acc then acc else acc ++ [seller_name]
      | .other => acc)
    []

/-- `ad_pressure_score` of the detail fetch (lines 514-529): one point
when the listing itself is sponsored, one when more than 5 related
sponsored products show. -/
def detailAdPressureScore (d : DetailProduct) : ℕ :=
  (if d.sponsored.getD false then 1 else 0) +
    (if 5 < d.sponsored_products.length then 1 else 0)

/-- `ad_pressure_details` collected alongside the score. -/
def detailAdPressureDetails (d : DetailProduct) : List String :=
  (if d.sponsored.getD false then ["Product listing is sponsored"] else []) ++
    (if 5 < d.sponsored_products.length then
      ["Page shows " ++ toString d.sponsored_products.length ++ " sponsored products"]
     else [])

/-- The ad-pressure level the detail fetch settles on (lines 531-554):
the detail object's own `ad_pressure_level` when present, else an
estimate from the sponsored-products count; then the score escalates it
(score ≥ 2 forces High, score 1 bumps one step unless already High). -/
def detailAdPressureLevel (d : DetailProduct) : String :=
  let sponsored_count := d.sponsored_products.length
  let level0 := match d.ad_pressure_level with
    | some l => l
    | none =>
      if sponsored_count = 0 then "Low"
      else if sponsored_count ≤ 5 then "Medium"
      else "High"
  let s := detailAdPressureScore d
  if 2 ≤ s then "High"
  else if s = 1 ∧ level0 ≠ "High" then
    if level0 = "Low" then "Medium"
    else if level0 = "Medium" then "High"
    else level0
  else level0

/-- `wholesale_price = round(retail_price * 0.55, 2)` (line 558). -/
def wholesale_price (retail_price : ℚ) : ℚ := round2 (retail_price * (55/100))

/-- The profit-margin computation before the final rounding (lines
561-564): `((retail - wholesale) / retail) * 100` when both prices are
positive, else 0. -/
def profit_margin_raw (retail_price : ℚ) : ℚ :=
  if 0 < retail_price ∧ 0 < wholesale_price retail_price then
    ((retail_price - wholesale_price retail_price) / retail_price) * 100
  else 0

/-- The dict returned by the success path of
`_get_rainforest_product_data` (lines 569-587); every key is always
present there. -/
structure EnrichedData where
  brand : String
  wholesale_price : ℚ
  amazon_link : String
  rating : ℚ
  review_count : ℤ
  best_seller_rank : ℚ
  category_ranks : List (ℚ × String)
  profit_margin : ℚ
  marketplace_sellers : List String
  seller_count : ℕ
  competition_level : String
  competition_details : String
  is_sponsored : Bool
  sponsored_count : ℕ
  ad_pressure_level : String
  ad_pressure_details : List String
  ad_pressure_score : ℕ
deriving DecidableEq

/-- The success path of `_get_rainforest_product_data` (lines 454-587)
for one `asin`, given the parsed detail object. -/
def get_rainforest_product_data (asin : String) (d : DetailProduct) : EnrichedData :=
  let rating := d.rating.getD 0
  let review_count := d.ratings_total.getD 0
  let retail_price := (d.buybox_winner.bind (fun b => b.price_value)).getD 0
  let competition := determine_competition_level
    { review_count := review_count,
      offers := some d.offers,
      marketplace_sellers := some (marketplaceSellersOf d.offers),
      buybox_winner := d.buybox_winner }
  { brand := brandNameOf d.brand,
    wholesale_price := wholesale_price retail_price,
    amazon_link := "https://www.amazon.com/dp/" ++ asin,
    rating := rating,
    review_count := review_count,
    best_seller_rank := bestRankOf d.bestsellers_rank,
    category_ranks := categoryRanksOf d.bestsellers_rank,
    profit_margin := round2 (profit_margin_raw retail_price),
    marketplace_sellers := marketplaceSellersOf d.offers,
    seller_count := (marketplaceSellersOf d.offers).length,
    competition_level := competition.1,
    competition_details := competition.2,
    is_sponsored := d.sponsored.getD false,
    sponsored_count := d.sponsored_products.length,
    ad_pressure_level := detailAdPressureLevel d,
    ad_pressure_details := detailAdPressureDetails d,
    ad_pressure_score := detailAdPressureScore d }

/-- The merge `combined_product = {**product, **enriched_data}` in
`get_product_recommendations` (line 91): every key of the enrichment
dict overwrites the search candidate's value for that key. -/
def combineProduct (product : Product) (e : EnrichedData) : Product :=
  { product with
    brand := some e.brand,
    wholesale_price := some e.wholesale_price,
    amazon_link := some e.amazon_link,
    rating := some e.rating,
    review_count := some ((e.review_count : ℚ)),
    best_seller_rank := some e.best_seller_rank,
    category_ranks := some e.category_ranks,
    profit_margin := some e.profit_margin,
    marketplace_sellers := some e.marketplace_sellers,
    seller_count := some e.seller_count,
    competition_level := some e.competition_level,
    competition_details := some e.competition_details,
    is_sponsored := some e.is_sponsored,
    sponsored_count := some e.sponsored_count,
    ad_pressure_level := some e.ad_pressure_level,
    ad_pressure_details := some e.ad_pressure_details,
    ad_pressure_score := some e.ad_pressure_score }

/-- The ordering Low < Medium < High on ad-pressure levels. -/
def adLevelRank (level : String) : ℕ :=
  if level = "Low" then 0 else if level = "Medium" then 1 else 2

/-- A secondary-search stub returning one fixed candidate, used to
observe whether the primary search delegates to it. -/
def fallbackProbe : String → Option String → ℕ → List Product :=
  fun _ _ _ => [{ asin := some "B000000001", title := some "Fallback Item" }]

/-- C2, counterexample: a primary-search call that succeeds (status
200) with an empty item list returns the empty list itself and not the
secondary search's result for the same arguments, so the claimed
fallback on "the call succeeds but yields an empty result" does not
happen. -/
theorem search_amazon_empty_success_counterexample :
    search_amazon_products (.resp 200 []) fallbackProbe "desk organizer" none 5 = [] ∧
    fallbackProbe "desk organizer" none 5 ≠ [] := by
  constructor
  · rfl
  · decide

/-- C2 (amended): whenever the primary catalog call raises an exception
or returns a non-200 status, `_search_amazon_products` returns exactly
the result of `_search_rainforest_products` on the identical
`(search_terms, category, limit)` arguments; a 200 response is
formatted and returned as is, even when empty. -/
theorem search_amazon_fallback_on_failure
    (rainforest : String → Option String → ℕ → List Product)
    (search_terms : String) (category : Option String) (limit : ℕ)
    (status : ℕ) (items : List AmazonItem) (h : status ≠ 200) :
    search_amazon_products .exn rainforest search_terms category limit =
      rainforest search_terms category limit ∧
    search_amazon_products (.resp status items) rainforest search_terms category limit =
      rainforest search_terms category limit := by
  constructor
  · rfl
  · simp [search_amazon_products, h]

/-- Witness for the amended C2 at a concrete failing status. -/
theorem search_amazon_fallback_on_failure_witness :
    (500 : ℕ) ≠ 200 ∧
    (search_amazon_products .exn fallbackProbe "garlic press" none 5 =
       fallbackProbe "garlic press" none 5 ∧
     search_amazon_products (.resp 500 []) fallbackProbe "garlic press" none 5 =
       fallbackProbe "garlic press" none 5) :=
  ⟨by decide,
   search_amazon_fallback_on_failure fallbackProbe "garlic press" none 5 500 [] (by decide)⟩

/-- C3, counterexample: when the completion call raises, the whole
`try` block is abandoned before the regex fallback runs, and the
`except` clause returns the all-null filters, so `min_margin` is `None`
and not 50 for the scenario query. -/
theorem parse_query_filters_unavailable_counterexample :
    (parse_query_filters "Find bathroom products with at least 50% margin"
        (.error ())).min_margin = none ∧
    (parse_query_filters "Find bathroom products with at least 50% margin"
        (.error ())).min_margin ≠ some 50 := by
  constructor
  · rfl
  · decide

/-- C3 (amended): the regex fallback yields `min_margin = 50` for the
scenario query exactly when the completion call succeeds without
populating `min_margin`; when the completion call itself raises,
`parse_query_filters` returns the all-null filter dict. -/
theorem parse_query_filters_margin_fallback :
    (parse_query_filters "Find bathroom products with at least 50% margin"
        (.ok {})).min_margin = some 50 ∧
    parse_query_filters "Find bathroom products with at least 50% margin"
        (.error ()) = ({} : Filters) := by
  constructor
  · decide
  · rfl

/-- A scored candidate with every field populated. -/
def scoreProbeA : Product :=
  { asin := some "B00PROBE01", title := some "Shower Caddy", brand := some "AcmeHome",
    price := some 20, category := some "Bathroom", seller_count := some 7,
    competition_level := some "High", is_sponsored := some true,
    rating := some 4, review_count := some 1200, best_seller_rank := some 40,
    profit_margin := some 45, ad_pressure_level := some "Low", score := some 90 }

/-- A candidate agreeing with `scoreProbeA` on the five scoring fields
and differing everywhere else. -/
def scoreProbeB : Product :=
  { brand := some "OtherBrand", price := some 5, seller_count := some 1,
    competition_level := some "Low", is_sponsored := some false,
    rating := some 4, review_count := some 1200, best_seller_rank := some 40,
    profit_margin := some 45, ad_pressure_level := some "Low", score := some 10 }

/-- C10: the score is a function of the five fields rating,
review_count, best_seller_rank, profit_margin and ad_pressure_level
alone; two records agreeing on those five (present or absent) score
identically whatever their other fields hold. -/
theorem score_depends_only_on_score_fields (p q : Product)
    (h1 : p.rating = q.rating) (h2 : p.review_count = q.review_count)
    (h3 : p.best_seller_rank = q.best_seller_rank)
    (h4 : p.profit_margin = q.profit_margin)
    (h5 : p.ad_pressure_level = q.ad_pressure_level) :
    calculate_product_score p = calculate_product_score q := by
  simp only [calculate_product_score, h1, h2, h3, h4, h5]

/-- Witness for C10 on two candidates differing in price, brand,
seller count, competition level, sponsorship and stored score. -/
theorem score_depends_only_on_score_fields_witness :
    scoreProbeA.rating = scoreProbeB.rating ∧
    scoreProbeA.review_count = scoreProbeB.review_count ∧
    scoreProbeA.best_seller_rank = scoreProbeB.best_seller_rank ∧
    scoreProbeA.profit_margin = scoreProbeB.profit_margin ∧
    scoreProbeA.ad_pressure_level = scoreProbeB.ad_pressure_level ∧
    scoreProbeA.price ≠ scoreProbeB.price ∧
    calculate_product_score scoreProbeA = calculate_product_score scoreProbeB :=
  ⟨rfl, rfl, rfl, rfl, rfl, by decide,
   score_depends_only_on_score_fields scoreProbeA scoreProbeB rfl rfl rfl rfl rfl⟩

/-- C9: all else equal, a candidate at best-seller rank 50 scores at
least as high as one at rank 500. -/
theorem score_rank_monotonic (p : Product) :
    calculate_product_score { p with best_seller_rank := some 500 } ≤
      calculate_product_score { p with best_seller_rank := some 50 } := by
  simp only [calculate_product_score, Option.getD_some]
  apply round2_mono
  have h50 : min ((50 : ℚ) / 100) 1 = 1/2 := by norm_num
  have h500 : min ((500 : ℚ) / 100) 1 = 1 := by
    rw [min_eq_right]
    norm_num
  rw [h50, h500]
  linarith

/-- C5: on any candidate whose present fields are valid — rating in
[0,5], non-negative review count, best-seller rank at least 1, profit
margin in [0,100], any ad-pressure level — the score lies in [0,100];
absent fields take the defaults 0 (rating, reviews, margin), 1000
(rank) and "Medium" (ad pressure), which the same hypotheses cover, so
the bounds hold for them too. -/
theorem calculate_product_score_bounds (p : Product)
    (hr0 : 0 ≤ p.rating.getD 0) (hr5 : p.rating.getD 0 ≤ 5)
    (hrc : 0 ≤ p.review_count.getD 0)
    (hbr : 1 ≤ p.best_seller_rank.getD 1000)
    (hpm0 : 0 ≤ p.profit_margin.getD 0) (hpm1 : p.profit_margin.getD 0 ≤ 100) :
    (0 ≤ calculate_product_score p ∧ calculate_product_score p ≤ 100) ∧
    calculate_product_score p =
      calculate_product_score
        { p with
          rating := some (p.rating.getD 0),
          review_count := some (p.review_count.getD 0),
          best_seller_rank := some (p.best_seller_rank.getD 1000),
          profit_margin := some (p.profit_margin.getD 0),
          ad_pressure_level := some (p.ad_pressure_level.getD "Medium") } := by
  have t1a : 0 ≤ p.rating.getD 0 / 5 := by positivity
  have t1b : p.rating.getD 0 / 5 ≤ 1 := by linarith
  have t2a : 0 ≤ min (p.review_count.getD 0 / 5000) 1 :=
    le_min (by positivity) zero_le_one
  have t2b : min (p.review_count.getD 0 / 5000) 1 ≤ 1 := min_le_right _ _
  have t3a : 0 ≤ min (p.best_seller_rank.getD 1000 / 100) 1 :=
    le_min (by positivity) zero_le_one
  have t3b : min (p.best_seller_rank.getD 1000 / 100) 1 ≤ 1 := min_le_right _ _
  have t4a : 0 ≤ min (p.profit_margin.getD 0 / 100) 1 :=
    le_min (by positivity) zero_le_one
  have t4b : min (p.profit_margin.getD 0 / 100) 1 ≤ 1 := min_le_right _ _
  have t5 : 0 ≤ (if p.ad_pressure_level.getD "Medium" = "Low" then (1 : ℚ)
        else if p.ad_pressure_level.getD "Medium" = "Medium" then 1/2 else 1/10) ∧
      (if p.ad_pressure_level.getD "Medium" = "Low" then (1 : ℚ)
        else if p.ad_pressure_level.getD "Medium" = "Medium" then 1/2 else 1/10) ≤ 1 := by
    split_ifs <;> norm_num
  refine ⟨⟨?_, ?_⟩, ?_⟩
  · simp only [calculate_product_score]
    apply round2_nonneg
    nlinarith [t5.1, t5.2]
  · simp only [calculate_product_score]
    apply round2_le_of_le
    · norm_num [round_eq]
    · nlinarith [t5.1, t5.2]
  · simp only [calculate_product_score, Option.getD_some]

/-- A fully valid enriched candidate for the score-bounds witness. -/
def boundsProbe : Product :=
  { asin := some "B00BOUNDS1", rating := some (9/2), review_count := some 6000,
    best_seller_rank := some 30, profit_margin := some 60,
    ad_pressure_level := some "Low" }

/-- Witness for C5 at a concrete valid candidate. -/
theorem calculate_product_score_bounds_witness :
    (0 ≤ boundsProbe.rating.getD 0 ∧ boundsProbe.rating.getD 0 ≤ 5 ∧
     0 ≤ boundsProbe.review_count.getD 0 ∧
     1 ≤ boundsProbe.best_seller_rank.getD 1000 ∧
     0 ≤ boundsProbe.profit_margin.getD 0 ∧ boundsProbe.profit_margin.getD 0 ≤ 100) ∧
    (0 ≤ calculate_product_score boundsProbe ∧
     calculate_product_score boundsProbe ≤ 100) :=
  ⟨⟨by norm_num [boundsProbe], by norm_num [boundsProbe], by norm_num [boundsProbe],
    by norm_num [boundsProbe], by norm_num [boundsProbe], by norm_num [boundsProbe]⟩,
   (calculate_product_score_bounds boundsProbe (by norm_num [boundsProbe])
      (by norm_num [boundsProbe]) (by norm_num [boundsProbe]) (by norm_num [boundsProbe])
      (by norm_num [boundsProbe]) (by norm_num [boundsProbe])).1⟩

/-- C6, counterexample: at the retail price 0.0095 (= 19/2000) the
derived wholesale price `round(0.55 * 0.0095, 2) = 0.01` exceeds the
retail price, and the rounded profit margin is negative (−5.26), so the
claimed `wholesale ≤ retail` and `0 ≤ profit_margin` fail for a
positive retail price. -/
theorem margin_invariant_counterexample :
    0 < (19/2000 : ℚ) ∧
    wholesale_price (19/2000) = 1/100 ∧
    (19/2000 : ℚ) < wholesale_price (19/2000) ∧
    round2 (profit_margin_raw (19/2000)) < 0 := by
  have hw : wholesale_price (19/2000) = 1/100 := by
    unfold wholesale_price round2
    norm_num [round_eq]
  refine ⟨by norm_num, hw, by rw [hw]; norm_num, ?_⟩
  have hraw : profit_margin_raw (19/2000) = -100/19 := by
    unfold profit_margin_raw
    rw [if_pos ⟨by norm_num, by rw [hw]; norm_num⟩, hw]
    norm_num
  rw [hraw]
  unfold round2
  norm_num [round_eq]

/-- C6 (amended): for every retail price that is at least 1/90 or is a
positive whole number of cents (k/100 for a positive integer k, so in
particular the one-cent price), the wholesale price is
`round(0.55 * retail, 2)`, stays at or below the retail price, and the
rounded profit margin lies in [0,100]; whenever either price is
non-positive the margin is exactly 0 (the division is guarded by
`retail > 0`). -/
theorem margin_invariants (retail_price : ℚ) :
    ((1/90 ≤ retail_price ∨ ∃ k : ℕ, 0 < k ∧ retail_price = (k : ℚ) / 100) →
      wholesale_price retail_price = round2 ((55/100) * retail_price) ∧
      wholesale_price retail_price ≤ retail_price ∧
      0 ≤ round2 (profit_margin_raw retail_price) ∧
      round2 (profit_margin_raw retail_price) ≤ 100) ∧
    (retail_price ≤ 0 ∨ wholesale_price retail_price ≤ 0 →
      round2 (profit_margin_raw retail_price) = 0) := by
  have harg : retail_price * (55/100) * 100 = 55 * retail_price := by ring
  have hkey : wholesale_price retail_price = ((round (55 * retail_price) : ℤ) : ℚ) / 100 := by
    unfold wholesale_price round2
    rw [harg]
  constructor
  · intro h
    have hfacts : 0 < retail_price ∧
        (1 : ℚ) ≤ ((round (55 * retail_price) : ℤ) : ℚ) ∧
        ((round (55 * retail_price) : ℤ) : ℚ) ≤ 100 * retail_price := by
      rcases h with h | ⟨k, hk, hkeq⟩
      · have hr0 : 0 < retail_price := lt_of_lt_of_le (by norm_num) h
        refine ⟨hr0, ?_, ?_⟩
        · rw [round_eq]
          have h1 : (1 : ℤ) ≤ ⌊55 * retail_price + 1/2⌋ := by
            apply Int.le_floor.mpr
            push_cast
            linarith
          exact_mod_cast h1
        · rw [round_eq]
          have h2 : ((⌊55 * retail_price + 1/2⌋ : ℤ) : ℚ) ≤ 55 * retail_price + 1/2 :=
            Int.floor_le _
          linarith
      · have hk1 : (1 : ℚ) ≤ (k : ℚ) := by exact_mod_cast hk
        have hr0 : 0 < retail_price := by
          rw [hkeq]
          linarith
        refine ⟨hr0, ?_, ?_⟩
        · rw [round_eq]
          have h1 : (1 : ℤ) ≤ ⌊55 * retail_price + 1/2⌋ := by
            apply Int.le_floor.mpr
            push_cast
            rw [hkeq]
            linarith
          exact_mod_cast h1
        · rw [round_eq]
          have hlt : ⌊55 * retail_price + 1/2⌋ < (k : ℤ) + 1 := by
            apply Int.floor_lt.mpr
            push_cast
            rw [hkeq]
            linarith
          have hle : ((⌊55 * retail_price + 1/2⌋ : ℤ) : ℚ) ≤ (k : ℚ) := by
            exact_mod_cast Int.lt_add_one_iff.mp hlt
          have h100 : 100 * retail_price = (k : ℚ) := by
            rw [hkeq]
            ring
          rw [h100]
          exact hle
    obtain ⟨hr0, hlb, hub100⟩ := hfacts
    have hw_le : wholesale_price retail_price ≤ retail_price := by
      rw [hkey]
      linarith
    have hw_pos : 0 < wholesale_price retail_price := by
      rw [hkey]
      linarith
    have hraw : profit_margin_raw retail_price =
        ((retail_price - wholesale_price retail_price) / retail_price) * 100 := by
      unfold profit_margin_raw
      rw [if_pos ⟨hr0, hw_pos⟩]
    refine ⟨by unfold wholesale_price; rw [mul_comm], hw_le, ?_, ?_⟩
    · apply round2_nonneg
      rw [hraw]
      have : 0 ≤ (retail_price - wholesale_price retail_price) / retail_price :=
        div_nonneg (by linarith) (le_of_lt hr0)
      linarith
    · apply round2_le_of_le
      · norm_num [round_eq]
      · rw [hraw]
        have : (retail_price - wholesale_price retail_price) / retail_price ≤ 1 :=
          (div_le_one hr0).mpr (by linarith)
        linarith
  · intro h
    have hcond : ¬ (0 < retail_price ∧ 0 < wholesale_price retail_price) := by
      rcases h with h | h
      · exact fun hc => absurd hc.1 (not_lt.mpr h)
      · exact fun hc => absurd hc.2 (not_lt.mpr h)
    unfold profit_margin_raw
    rw [if_neg hcond]
    unfold round2
    norm_num [round_eq]

/-- Witness for the amended C6 at retail prices 40, 0.01 (the one-cent
whole-cent case, below 1/90) and 0. -/
theorem margin_invariants_witness :
    (1/90 : ℚ) ≤ 40 ∧
    (wholesale_price 40 = round2 ((55/100) * 40) ∧
     wholesale_price 40 ≤ 40 ∧
     0 ≤ round2 (profit_margin_raw 40) ∧ round2 (profit_margin_raw 40) ≤ 100) ∧
    (0 < (1 : ℕ) ∧ (1/100 : ℚ) = ((1 : ℕ) : ℚ) / 100) ∧
    (wholesale_price (1/100) ≤ 1/100 ∧
     0 ≤ round2 (profit_margin_raw (1/100))) ∧
    ((0 : ℚ) ≤ 0 ∨ wholesale_price 0 ≤ 0) ∧
    round2 (profit_margin_raw 0) = 0 :=
  ⟨by norm_num,
   (margin_invariants 40).1 (Or.inl (by norm_num)),
   ⟨by norm_num, by norm_num⟩,
   ⟨((margin_invariants (1/100)).1 (Or.inr ⟨1, by norm_num, by norm_num⟩)).2.1,
    ((margin_invariants (1/100)).1 (Or.inr ⟨1, by norm_num, by norm_num⟩)).2.2.1⟩,
   Or.inl le_rfl, (margin_invariants 0).2 (Or.inl le_rfl)⟩

/-- C1: filtering a non-empty scored candidate list never returns the
empty list; and when no candidate passes every non-null constraint, the
result is exactly the first `min(3, len(input))` entries of the input
sorted descending by score. -/
theorem apply_filters_nonempty (products : List Product) (filters : Filters)
    (hne : products ≠ []) :
    apply_filters products filters ≠ [] ∧
    (products.filter (passesFilters filters) = [] →
      ∃ sorted : List Product, sorted.Perm products ∧ List.Sorted scoreGE sorted ∧
        apply_filters products filters = sorted.take (min 3 products.length)) := by
  have hlen : 0 < products.length := List.length_pos.mpr hne
  have heq1 : products.filter (passesFilters filters) = [] →
      apply_filters products filters =
        (sortByScoreDesc products).take (min 3 products.length) := by
    intro h
    simp [apply_filters, hne, h]
  have heq2 : products.filter (passesFilters filters) ≠ [] →
      apply_filters products filters = products.filter (passesFilters filters) := by
    intro h
    simp [apply_filters, hne, h]
  constructor
  · by_cases hf : products.filter (passesFilters filters) = []
    · rw [heq1 hf]
      apply List.ne_nil_of_length_pos
      have hslen : (sortByScoreDesc products).length = products.length :=
        (List.perm_insertionSort scoreGE products).length_eq
      rw [List.length_take, hslen, lt_min_iff, lt_min_iff]
      exact ⟨⟨by norm_num, hlen⟩, hlen⟩
    · rw [heq2 hf]
      exact hf
  · intro hf
    exact ⟨sortByScoreDesc products, List.perm_insertionSort scoreGE products,
      List.sorted_insertionSort scoreGE products, heq1 hf⟩

/-- A scored candidate for the filter-engine witness. -/
def filterProbe : Product :=
  { asin := some "B00FILTER1", price := some 20, rating := some 4,
    review_count := some 150, profit_margin := some 30, score := some 55 }

/-- Witness for C1 on a one-candidate list with no constraints. -/
theorem apply_filters_nonempty_witness :
    ([filterProbe] : List Product) ≠ [] ∧
    (apply_filters [filterProbe] {} ≠ [] ∧
     ([filterProbe].filter (passesFilters {}) = [] →
       ∃ sorted : List Product, sorted.Perm [filterProbe] ∧ List.Sorted scoreGE sorted ∧
         apply_filters [filterProbe] {} =
           sorted.take (min 3 ([filterProbe] : List Product).length))) :=
  ⟨by decide, apply_filters_nonempty [filterProbe] {} (by decide)⟩

/-- A secondary-search response of 20 results, 6 of them sponsored. -/
def sponsoredProbeResults : List RFSearchItem :=
  List.replicate 6 ({ sponsored := some true } : RFSearchItem) ++
    List.replicate 14 ({} : RFSearchItem)

/-- C7: every candidate a successful secondary search returns carries
the one (ad-pressure level, sponsored ratio) pair of the whole
response; the ratio is computed over the first `min(20, N)` results;
the classification is Low below 0.2, Medium from 0.2 through 0.5, High
above 0.5; and 6 sponsored of 20 analyzed yields ratio 0.30, level
Medium. -/
theorem rainforest_ad_pressure_attached (search_results : List RFSearchItem) (limit : ℕ) :
    (∀ p ∈ search_rainforest_products search_results limit,
       p.ad_pressure_level = some (adPressureLevelOf (sponsoredRatioOf search_results)) ∧
       p.sponsored_ratio = some (sponsoredRatioOf search_results)) ∧
    (search_results.take 20).length = min 20 search_results.length ∧
    (∀ r : ℚ, (r < 2/10 → adPressureLevelOf r = "Low") ∧
       (2/10 ≤ r → r ≤ 5/10 → adPressureLevelOf r = "Medium") ∧
       (5/10 < r → adPressureLevelOf r = "High")) ∧
    sponsoredRatioOf sponsoredProbeResults = 3/10 ∧
    adPressureLevelOf (3/10) = "Medium" := by
  refine ⟨?_, List.length_take 20 search_results, ?_, ?_, ?_⟩
  · intro p hp
    have hp' : p ∈ search_results.map (fun item =>
        ({ asin := some (item.asin.getD ""),
           title := some (item.title.getD ""),
           brand := some (brandNameOf item.brand),
           price := some (priceValueOf item.price),
           category := some (categoryNameOf item.categories),
           image_url := some (item.image.getD ""),
           is_sponsored := some (item.sponsored.getD false),
           ad_pressure_level := some (adPressureLevelOf (sponsoredRatioOf search_results)),
           sponsored_ratio := some (sponsoredRatioOf search_results) } : Product)) :=
      List.mem_of_mem_take hp
    obtain ⟨item, _, rfl⟩ := List.mem_map.mp hp'
    exact ⟨rfl, rfl⟩
  · intro r
    refine ⟨fun h => ?_, fun h1 h2 => ?_, fun h => ?_⟩
    · unfold adPressureLevelOf
      rw [if_pos h]
    · unfold adPressureLevelOf
      rw [if_neg (not_lt.mpr h1), if_pos h2]
    · unfold adPressureLevelOf
      rw [if_neg (not_lt.mpr (by linarith)), if_neg (not_le.mpr h)]
  · have h6 : ((sponsoredProbeResults.take 20).filter
        (fun i => i.sponsored.getD false)).length = 6 := by decide
    have h20 : (sponsoredProbeResults.take 20).length = 20 := by decide
    simp only [sponsoredRatioOf]
    rw [h6, h20]
    norm_num
  · unfold adPressureLevelOf
    norm_num

/-- The head of the probe secondary search's output. -/
def rainforestProbeHead : Product :=
  (search_rainforest_products sponsoredProbeResults 5).head?.getD {}

/-- Witness for C7: the first returned candidate of the 6-of-20 probe
response carries the response's (level, ratio) pair. -/
theorem rainforest_ad_pressure_attached_witness :
    rainforestProbeHead ∈ search_rainforest_products sponsoredProbeResults 5 ∧
    (rainforestProbeHead.ad_pressure_level =
       some (adPressureLevelOf (sponsoredRatioOf sponsoredProbeResults)) ∧
     rainforestProbeHead.sponsored_ratio =
       some (sponsoredRatioOf sponsoredProbeResults)) := by
  have hmem : rainforestProbeHead ∈ search_rainforest_products sponsoredProbeResults 5 := by
    have h : search_rainforest_products sponsoredProbeResults 5 =
        rainforestProbeHead :: (search_rainforest_products sponsoredProbeResults 5).tail := rfl
    rw [h]
    exact List.mem_cons_self _ _
  exact ⟨hmem,
    (rainforest_ad_pressure_attached sponsoredProbeResults 5).1 rainforestProbeHead hmem⟩

/-- C8: the exception-free path of `determine_competition_level` maps
every input to one (level, rationale) pair: with seller data (seller
count ≥ 1) the level comes from the seller count (≤2 Low, ≤5 Medium,
>5 High) and a positive review count appends review context to the
rationale; without seller data the review count alone decides (0
Unknown, <500 Low, <1000 Medium, ≥1000 High); the error pair
`("Unknown", "Error analyzing competition data")` is never produced on
this path. -/
theorem determine_competition_level_classification (i : CompetitionInput) :
    (1 ≤ sellerCountOf i →
      ((sellerCountOf i ≤ 2 → (determine_competition_level i).1 = "Low") ∧
       (2 < sellerCountOf i → sellerCountOf i ≤ 5 →
         (determine_competition_level i).1 = "Medium") ∧
       (5 < sellerCountOf i → (determine_competition_level i).1 = "High")) ∧
      (0 < i.review_count →
        (determine_competition_level i).2 =
          sellerDetailsOf (sellerCountOf i) ++ " with " ++
            toString i.review_count ++ " product reviews")) ∧
    (sellerCountOf i = 0 →
      ((i.review_count = 0 → determine_competition_level i =
          ("Unknown", "No review or seller data available")) ∧
       (i.review_count ≠ 0 → i.review_count < 500 →
         (determine_competition_level i).1 = "Low") ∧
       (500 ≤ i.review_count → i.review_count < 1000 →
         (determine_competition_level i).1 = "Medium") ∧
       (1000 ≤ i.review_count → (determine_competition_level i).1 = "High"))) ∧
    determine_competition_level i ≠ ("Unknown", "Error analyzing competition data") := by
  refine ⟨fun h => ?_, fun h0 => ?_, ?_⟩
  · have h0 : ¬ sellerCountOf i = 0 := by omega
    simp only [determine_competition_level, if_neg h0]
    refine ⟨⟨fun h2 => ?_, fun h2 h5 => ?_, fun h5 => ?_⟩, fun hrc => ?_⟩
    · rw [if_pos h2]
    · rw [if_neg (by omega), if_pos h5]
    · rw [if_neg (by omega), if_neg (by omega)]
    · rw [if_pos hrc]
  · simp only [determine_competition_level, if_pos h0]
    refine ⟨fun hrc => ?_, fun hrc0 hrc => ?_, fun ha hb => ?_, fun ha => ?_⟩
    · rw [if_pos hrc]
    · rw [if_neg hrc0, if_pos hrc]
    · rw [if_neg (by omega), if_neg (by omega), if_pos hb]
    · rw [if_neg (by omega), if_neg (by omega), if_neg (by omega)]
  · by_cases h0 : sellerCountOf i = 0
    · simp only [determine_competition_level, if_pos h0]
      by_cases hrc : i.review_count = 0
      · rw [if_pos hrc]
        decide
      · rw [if_neg hrc]
        by_cases h5 : i.review_count < 500
        · rw [if_pos h5]
          intro hc
          simp [Prod.mk.injEq] at hc
        · rw [if_neg h5]
          by_cases h10 : i.review_count < 1000
          · rw [if_pos h10]
            intro hc
            simp [Prod.mk.injEq] at hc
          · rw [if_neg h10]
            intro hc
            simp [Prod.mk.injEq] at hc
    · simp only [determine_competition_level, if_neg h0]
      by_cases h2 : sellerCountOf i ≤ 2
      · rw [if_pos h2]
        intro hc
        simp [Prod.mk.injEq] at hc
      · rw [if_neg h2]
        by_cases h5 : sellerCountOf i ≤ 5
        · rw [if_pos h5]
          intro hc
          simp [Prod.mk.injEq] at hc
        · rw [if_neg h5]
          intro hc
          simp [Prod.mk.injEq] at hc

/-- A competition input with three offers and 300 reviews. -/
def competitionProbe : CompetitionInput :=
  { review_count := 300, offers := some [{}, {}, {}] }

/-- Witness for C8: three sellers and 300 reviews classify as Medium
with the review context appended, and never as the error pair. -/
theorem determine_competition_level_classification_witness :
    (1 ≤ sellerCountOf competitionProbe ∧ 2 < sellerCountOf competitionProbe ∧
     sellerCountOf competitionProbe ≤ 5 ∧ 0 < competitionProbe.review_count) ∧
    (determine_competition_level competitionProbe).1 = "Medium" ∧
    (determine_competition_level competitionProbe).2 =
      sellerDetailsOf (sellerCountOf competitionProbe) ++ " with " ++
        toString competitionProbe.review_count ++ " product reviews" ∧
    determine_competition_level competitionProbe ≠
      ("Unknown", "Error analyzing competition data") :=
  ⟨⟨by decide, by decide, by decide, by decide⟩,
   (((determine_competition_level_classification competitionProbe).1 (by decide)).1).2.1
     (by decide) (by decide),
   ((determine_competition_level_classification competitionProbe).1 (by decide)).2 (by decide),
   (determine_competition_level_classification competitionProbe).2.2⟩

/-- A secondary-search candidate that arrives at enrichment already
carrying a High ad-pressure baseline from the search response. -/
def baselineCandidate : Product :=
  { asin := some "B0BASELINE", title := some "Baseline Candidate", price := some 25,
    is_sponsored := some false, ad_pressure_level := some "High",
    sponsored_ratio := some (6/10) }

/-- A detail response for the same product with no sponsorship signals
at all: the listing is not sponsored and no related sponsored products
show.  The detail object carries no `ad_pressure_level` key — that key
only ever exists on the pipeline's own search candidates, never on the
provider's detail object the source reads it from. -/
def quietDetail : DetailProduct := {}

/-- C4, failing run: the enrichment dict always contains an
`ad_pressure_level` key recomputed from the detail response alone
(`product.get('ad_pressure_level', None)` reads the detail object, not
the search candidate, so the baseline is invisible there), and the
merge `{**product, **enriched_data}` overwrites the candidate's High
baseline with the recomputed Low — a de-escalation the claim rules
out. -/
theorem ad_pressure_merge_deescalates :
    baselineCandidate.ad_pressure_level = some "High" ∧
    (get_rainforest_product_data "B0BASELINE" quietDetail).ad_pressure_level = "Low" ∧
    (combineProduct baselineCandidate
        (get_rainforest_product_data "B0BASELINE" quietDetail)).ad_pressure_level =
      some "Low" ∧
    adLevelRank "Low" < adLevelRank "High" :=
  ⟨rfl, rfl, rfl, by decide⟩

end Streamline
